import Mathlib

/-!
Verification of the s390 architecture descriptor
(`src/hotspot/cpu/s390/globalDefinitions_s390.hpp`).

The header is a flat table of compile-time constants and feature flags.
Each C++ constant or preprocessor flag is embedded as a Lean constant of
the corresponding mathematical type (machine integers as `Nat`/`Int`,
feature-test macros as `Bool`).
-/

/-- `#define ShortenBranches true` -/
def ShortenBranches : Bool := true

/-- `const int StackAlignmentInBytes = 8;` -/
def StackAlignmentInBytes : Int := 8

/-- `const size_t pd_segfault_address = 4096;` — all faults on s390x give
the address only on page granularity. -/
def pd_segfault_address : Nat := 4096

/-- `#define SUPPORTS_NATIVE_CX8` — the macro is defined, i.e. the flag is
present/true. -/
def SUPPORTS_NATIVE_CX8 : Bool := true

/-- `#define CPU_MULTI_COPY_ATOMIC` — the macro is defined, i.e. the flag
is present/true. -/
def CPU_MULTI_COPY_ATOMIC : Bool := true

/-- `const bool CCallingConventionRequiresIntsAsLongs = true;` -/
def CCallingConventionRequiresIntsAsLongs : Bool := true

/-- `#define DEFAULT_CACHE_LINE_SIZE 256` -/
def DEFAULT_CACHE_LINE_SIZE : Nat := 256

/-- `#define DEFAULT_PADDING_SIZE DEFAULT_CACHE_LINE_SIZE` -/
def DEFAULT_PADDING_SIZE : Nat := DEFAULT_CACHE_LINE_SIZE

/-- `#define SUPPORT_RESERVED_STACK_AREA` — the macro is defined, i.e. the
flag is present/true. -/
def SUPPORT_RESERVED_STACK_AREA : Bool := true

/-- Modelled from the spec: the repository under `src/` contains only the
constant table; the fault decoder that rounds a fault address down to the
`SegfaultAddressGranularity` (`pd_segfault_address`) boundary is external.
`round_down x g` rounds `x` down to the nearest multiple of `g`. -/
def round_down (x g : Nat) : Nat := x / g * g

/-- A guard page, given as a byte range `[base, base + size)`. -/
structure GuardPage where
  base : Nat
  size : Nat
deriving DecidableEq

/-- Modelled from the spec: the hardware on s390x reports a fault address
only at page granularity, i.e. rounded down to a multiple of
`pd_segfault_address`. -/
def hardware_reported_address (a : Nat) : Nat :=
  round_down a pd_segfault_address

/-- Whether an address lies inside a guard page's byte range. -/
def in_guard_page (a : Nat) (g : GuardPage) : Bool :=
  decide (g.base ≤ a ∧ a < g.base + g.size)

/-- Modelled from the spec: the fault classifier of the stack-guard
subsystem (external to `src/`) classifies a fault at address `a` as
within guard page `g` when the hardware-reported (page-granular) address
lies in `g`'s byte range. -/
def classify_fault (a : Nat) (g : GuardPage) : Bool :=
  in_guard_page (hardware_reported_address a) g

/-- Modelled from the spec: the object-layout engine (external to `src/`)
separates two independently-contended fields by inserting
`DEFAULT_PADDING_SIZE` bytes of padding after the first field; the second
field starts at the returned offset. `endOfFirst` is the byte offset one
past the first field. -/
def padded_second_field_offset (endOfFirst : Nat) : Nat :=
  endOfFirst + DEFAULT_PADDING_SIZE

/-- The separation in bytes the padding insertion produces between the end
of the first field and the start of the second. -/
def padded_separation (endOfFirst : Nat) : Nat :=
  padded_second_field_offset endOfFirst - endOfFirst

/-- The names of the facts the descriptor exposes. -/
inductive FactName where
  | shortenBranches
  | stackAlignmentInBytes
  | segfaultAddressGranularity
  | supportsNativeCompareAndSwap8Byte
  | multiCopyAtomic
  | cCallingConventionRequiresWideIntArgs
  | cacheLineSizeBytes
  | paddingSizeBytes
  | supportsReservedStackArea
deriving DecidableEq

/-- A fact's value: an integer constant or a boolean flag. -/
inductive FactValue where
  | int (n : Int)
  | flag (b : Bool)
deriving DecidableEq

/-- The descriptor as a flat table of named facts, one entry per constant
of the header, in source order. -/
def descriptorTable : List (FactName × FactValue) :=
  [ (FactName.shortenBranches, FactValue.flag ShortenBranches),
    (FactName.stackAlignmentInBytes, FactValue.int StackAlignmentInBytes),
    (FactName.segfaultAddressGranularity, FactValue.int (pd_segfault_address : Int)),
    (FactName.supportsNativeCompareAndSwap8Byte, FactValue.flag SUPPORTS_NATIVE_CX8),
    (FactName.multiCopyAtomic, FactValue.flag CPU_MULTI_COPY_ATOMIC),
    (FactName.cCallingConventionRequiresWideIntArgs,
      FactValue.flag CCallingConventionRequiresIntsAsLongs),
    (FactName.cacheLineSizeBytes, FactValue.int (DEFAULT_CACHE_LINE_SIZE : Int)),
    (FactName.paddingSizeBytes, FactValue.int (DEFAULT_PADDING_SIZE : Int)),
    (FactName.supportsReservedStackArea, FactValue.flag SUPPORT_RESERVED_STACK_AREA) ]

/-- Reading a fact from the descriptor: pure lookup in the constant table.
There is no write operation; the table is a closed Lean constant, so every
read of the same fact yields the same value for the lifetime of the build. -/
def readFact (f : FactName) : Option FactValue :=
  (descriptorTable.find? (fun p => p.1 = f)).map Prod.snd

/-- C1: the descriptor's literal fact values are StackAlignmentInBytes = 8,
SegfaultAddressGranularity = 4096, CacheLineSizeBytes = PaddingSizeBytes = 256,
CCallingConventionRequiresWideIntArgs = true, and ShortenBranches = true. -/
theorem descriptor_literal_fact_values :
    StackAlignmentInBytes = 8 ∧
    pd_segfault_address = 4096 ∧
    DEFAULT_CACHE_LINE_SIZE = 256 ∧
    DEFAULT_PADDING_SIZE = 256 ∧
    DEFAULT_CACHE_LINE_SIZE = DEFAULT_PADDING_SIZE ∧
    CCallingConventionRequiresIntsAsLongs = true ∧
    ShortenBranches = true := by
  refine ⟨rfl, rfl, rfl, rfl, rfl, rfl, rfl⟩

/-- C2: the capability flags MultiCopyAtomic and
SupportsNativeCompareAndSwap8Byte are both true, and the
SupportsReservedStackArea capability is present (true). -/
theorem descriptor_capability_flags :
    CPU_MULTI_COPY_ATOMIC = true ∧
    SUPPORTS_NATIVE_CX8 = true ∧
    SUPPORT_RESERVED_STACK_AREA = true := by
  refine ⟨rfl, rfl, rfl⟩

/-- C3: PaddingSizeBytes is at least CacheLineSizeBytes, and in this
descriptor the two are exactly equal. -/
theorem padding_ge_cache_line :
    DEFAULT_CACHE_LINE_SIZE ≤ DEFAULT_PADDING_SIZE ∧
    DEFAULT_PADDING_SIZE = DEFAULT_CACHE_LINE_SIZE := by
  refine ⟨le_refl _, rfl⟩

/-- C4: StackAlignmentInBytes, CacheLineSizeBytes and PaddingSizeBytes are
each a positive power of two, and StackAlignmentInBytes is at least the
natural word size of this 64-bit target, 8 bytes. -/
theorem alignment_constants_powers_of_two :
    (0 < StackAlignmentInBytes ∧ ∃ k : Nat, StackAlignmentInBytes = 2 ^ k) ∧
    (0 < DEFAULT_CACHE_LINE_SIZE ∧ ∃ k : Nat, DEFAULT_CACHE_LINE_SIZE = 2 ^ k) ∧
    (0 < DEFAULT_PADDING_SIZE ∧ ∃ k : Nat, DEFAULT_PADDING_SIZE = 2 ^ k) ∧
    8 ≤ StackAlignmentInBytes := by
  refine ⟨⟨by norm_num [StackAlignmentInBytes], 3, by norm_num [StackAlignmentInBytes]⟩,
    ⟨by norm_num [DEFAULT_CACHE_LINE_SIZE], 8, by norm_num [DEFAULT_CACHE_LINE_SIZE]⟩,
    ⟨by norm_num [DEFAULT_PADDING_SIZE, DEFAULT_CACHE_LINE_SIZE], 8,
      by norm_num [DEFAULT_PADDING_SIZE, DEFAULT_CACHE_LINE_SIZE]⟩,
    by norm_num [StackAlignmentInBytes]⟩

/-- C5: SegfaultAddressGranularity is a positive power of two, and rounding
an address down to a multiple of it is idempotent. -/
theorem segfault_granularity_round_idempotent :
    (0 < pd_segfault_address ∧ ∃ k : Nat, pd_segfault_address = 2 ^ k) ∧
    ∀ x : Nat,
      round_down (round_down x pd_segfault_address) pd_segfault_address =
        round_down x pd_segfault_address := by
  refine ⟨⟨by norm_num [pd_segfault_address], 12, by norm_num [pd_segfault_address]⟩, ?_⟩
  intro x
  simp only [round_down, pd_segfault_address]
  omega

/-- C6: the fault classifier classifies fault address a as within guard
page g exactly when the address rounded down to SegfaultAddressGranularity
falls inside the byte range of g. -/
theorem classify_fault_iff_rounded_in_range :
    ∀ (a : Nat) (g : GuardPage),
      classify_fault a g = true ↔
        (g.base ≤ round_down a pd_segfault_address ∧
         round_down a pd_segfault_address < g.base + g.size) := by
  intro a g
  simp [classify_fault, in_guard_page, hardware_reported_address]

/-- C7: the padding insertion between two independently-contended fields
produces at least PaddingSizeBytes (= 256) bytes of separation. -/
theorem padding_insertion_separation :
    ∀ endOfFirst : Nat,
      DEFAULT_PADDING_SIZE ≤ padded_separation endOfFirst ∧
      DEFAULT_PADDING_SIZE = 256 := by
  intro endOfFirst
  refine ⟨?_, rfl⟩
  simp [padded_separation, padded_second_field_offset]

/-- C8: every fact of the descriptor is an immutable constant: reads are a
pure function of the fact name (any two reads of the same fact agree), no
fact name appears twice in the table, so no two facts describe the same
property with different values, and the one deliberately shared value,
PaddingSizeBytes, equals CacheLineSizeBytes. -/
theorem descriptor_facts_immutable_consistent :
    (∀ f v₁ v₂, (f, v₁) ∈ descriptorTable → (f, v₂) ∈ descriptorTable → v₁ = v₂) ∧
    (∀ f v₁ v₂, readFact f = some v₁ → readFact f = some v₂ → v₁ = v₂) ∧
    DEFAULT_PADDING_SIZE = DEFAULT_CACHE_LINE_SIZE := by
  constructor
  · intro f v₁ v₂ h₁ h₂
    cases f <;> simp_all [descriptorTable]
  constructor
  · intro f v₁ v₂ h₁ h₂
    rw [h₁] at h₂
    exact Option.some.inj h₂
  · rfl

/-- Witness for C8 at a concrete fact: both membership hypotheses are
discharged at the ShortenBranches entry of the table. -/
theorem descriptor_facts_immutable_consistent_witness :
    FactValue.flag ShortenBranches = FactValue.flag ShortenBranches :=
  descriptor_facts_immutable_consistent.1 FactName.shortenBranches
    (FactValue.flag ShortenBranches) (FactValue.flag ShortenBranches)
    (by simp [descriptorTable]) (by simp [descriptorTable])

/-- C9: 4096 is an exact multiple of 256 and 256 an exact multiple of 8,
so an address aligned to SegfaultAddressGranularity is also cache-line- and
stack-aligned. -/
theorem descriptor_divisibility_chain :
    pd_segfault_address % DEFAULT_CACHE_LINE_SIZE = 0 ∧
    (DEFAULT_CACHE_LINE_SIZE : Int) % StackAlignmentInBytes = 0 ∧
    ∀ x : Nat, pd_segfault_address ∣ x →
      DEFAULT_CACHE_LINE_SIZE ∣ x ∧ StackAlignmentInBytes ∣ (x : Int) := by
  refine ⟨rfl, rfl, ?_⟩
  intro x hx
  constructor
  · exact dvd_trans (by norm_num [DEFAULT_CACHE_LINE_SIZE, pd_segfault_address]) hx
  · have hxi : ((pd_segfault_address : Int)) ∣ (x : Int) := Int.natCast_dvd_natCast.mpr hx
    exact dvd_trans (by norm_num [StackAlignmentInBytes, pd_segfault_address]) hxi

/-- Witness for C9 at the concrete aligned address 8192. -/
theorem descriptor_divisibility_chain_witness :
    DEFAULT_CACHE_LINE_SIZE ∣ 8192 ∧ StackAlignmentInBytes ∣ ((8192 : Nat) : Int) :=
  descriptor_divisibility_chain.2.2 8192
    (by norm_num [pd_segfault_address])

/-- C10: rounding an address down to SegfaultAddressGranularity never
overshoots and stays within the same 4096-byte window. -/
theorem round_down_stays_in_window :
    ∀ x : Nat,
      round_down x pd_segfault_address ≤ x ∧
      x - round_down x pd_segfault_address < 4096 := by
  intro x
  simp only [round_down, pd_segfault_address]
  omega
